import Mathlib

/-!
Verification of the fx_scrapper scraping core (src/scrappers).

The Python code is shallowly embedded:
* Python values that flow through the validator are modelled by `PyVal`
  (dicts as association lists, floats as exact rationals plus inf/nan).
* Python `in` (membership) and `[]` (subscription) are modelled by
  `pyContains` / `pyGetItem`; `Option.none` stands for the TypeError /
  KeyError the operation would raise.
* `float(str)` is modelled by `pyFloat?`, a parser for Python's float
  literal grammar (sign, digits with single underscores between digits,
  optional fraction and exponent, inf/infinity/nan); `Option.none`
  stands for ValueError.
* Exceptions are modelled with `Except`; `PyExc.scraper` covers the
  `ScraperException` hierarchy of exceptions.py and `PyExc.other` any
  other exception (carrying `str(e)`).
* BeautifulSoup is abstracted away: a parser receives the structure the
  selectors would produce (for BOT a list of rows, each with the
  optional `.currency .print_show` contents and the `td` texts; for
  CTBC an optional table given as a list of rows of `td` texts).
* `datetime.now().isoformat()` is modelled by a clock `Nat → String`
  sampled once per constructed record, in construction order.
-/

/-- Model of a Python float value: an exact rational (numerator and
positive denominator in lowest terms), a signed infinity, or nan. -/
inductive PyFloat where
  | finite : Int → Nat → PyFloat
  | inf : Bool → PyFloat
  | nan : PyFloat
deriving DecidableEq, Repr

/-- Build a finite `PyFloat` in lowest terms from a sign, a numerator and
a positive denominator. -/
def PyFloat.ofFrac (neg : Bool) (n d : Nat) : PyFloat :=
  let g := Nat.gcd n d
  .finite (if neg then -((n / g : Nat) : Int) else ((n / g : Nat) : Int)) (d / g)

/-- Model of the Python values reaching `validate_rate`: `None`, floats,
strings, lists and string-keyed dicts. -/
inductive PyVal where
  | none : PyVal
  | float : PyFloat → PyVal
  | str : String → PyVal
  | list : List PyVal → PyVal
  | dict : List (String × PyVal) → PyVal

/-- `isinstance(v, dict)`. -/
def PyVal.isDict : PyVal → Bool
  | .dict _ => true
  | _ => false

/-- Python `==` between a value and a string (used by list membership);
a non-string value never equals a string. -/
def pyEqStr : PyVal → String → Bool
  | .str s, k => s = k
  | _, _ => false

/-- Is `needle` a contiguous substring of `hay` (Python `in` on str). -/
def strContainsSub (hay needle : List Char) : Bool :=
  needle.isPrefixOf hay ||
    match hay with
    | [] => false
    | _ :: t => strContainsSub t needle

/-- Python `k in v` for a string `k`: key lookup on dicts, element
equality on lists, substring on strings; `Option.none` models the
TypeError raised on non-container values. -/
def pyContains : PyVal → String → Option Bool
  | .dict kvs, k => some (kvs.any (fun p => p.1 == k))
  | .list l, k => some (l.any (fun v => pyEqStr v k))
  | .str s, k => some (strContainsSub s.toList k.toList)
  | _, _ => Option.none

/-- Python `v[k]` for a string `k`: dict lookup; `Option.none` models the
TypeError (non-dict) or KeyError (missing key) the subscription raises. -/
def pyGetItem : PyVal → String → Option PyVal
  | .dict kvs, k => (kvs.find? (fun p => p.1 == k)).map (fun p => p.2)
  | _, _ => Option.none

/-- Python `str.strip()`: drop whitespace from both ends. -/
def pyStrip (cs : List Char) : List Char :=
  ((cs.dropWhile Char.isWhitespace).reverse.dropWhile Char.isWhitespace).reverse

/-- Python `str.split(sep)` for a one-character separator: split at every
occurrence, keeping empty pieces (the result is never empty). -/
def pySplitChar (sep : Char) : List Char → List (List Char)
  | [] => [[]]
  | c :: rest =>
    if c = sep then [] :: pySplitChar sep rest
    else
      match pySplitChar sep rest with
      | [] => [[c]]
      | p :: ps => (c :: p) :: ps

/-- Python `str.replace(c, "")` for a one-character pattern: remove every
occurrence. -/
def removeChar (x : Char) (cs : List Char) : List Char :=
  cs.filter (fun c => c ≠ x)

/-- Helper for `pySplitWs`: accumulate the current (reversed) token. -/
def splitWsAux : List Char → List Char → List (List Char)
  | tok, [] => if tok.isEmpty then [] else [tok.reverse]
  | tok, c :: rest =>
    if c.isWhitespace then
      if tok.isEmpty then splitWsAux [] rest
      else tok.reverse :: splitWsAux [] rest
    else splitWsAux (c :: tok) rest

/-- Python `str.split()` with no argument: split on whitespace runs,
discarding empty pieces. -/
def pySplitWs (cs : List Char) : List (List Char) :=
  splitWsAux [] cs

/-- Scan a run of decimal digits allowing a single underscore between two
digits (Python numeric literal grammar); returns the accumulated value,
the number of digits read, and the unread remainder. -/
def scanDigits (acc n : Nat) : List Char → Nat × Nat × List Char
  | [] => (acc, n, [])
  | [c] =>
    if c.isDigit then (10 * acc + (c.toNat - 48), n + 1, []) else (acc, n, [c])
  | c :: d :: rest =>
    if c.isDigit then scanDigits (10 * acc + (c.toNat - 48)) (n + 1) (d :: rest)
    else if c = '_' && n != 0 && d.isDigit then
      scanDigits (10 * acc + (d.toNat - 48)) (n + 1) rest
    else (acc, n, c :: d :: rest)

/-- Parse the optional exponent part of a float literal and apply it to
the nonnegative mantissa fraction `n / d`; the whole remaining input must
be consumed. -/
def scanExponent (n d : Nat) : List Char → Option (Nat × Nat)
  | [] => some (n, d)
  | c :: rest =>
    if c = 'e' || c = 'E' then
      let signedRest : Bool × List Char :=
        match rest with
        | '+' :: r => (false, r)
        | '-' :: r => (true, r)
        | r => (false, r)
      match scanDigits 0 0 signedRest.2 with
      | (e, ne, rest2) =>
        if ne = 0 || !rest2.isEmpty then Option.none
        else some (if signedRest.1 then (n, d * 10 ^ e) else (n * 10 ^ e, d))
    else Option.none

/-- Parse `digits [. digits] [exponent]` into a nonnegative fraction,
requiring at least one digit in the mantissa and full consumption of the
input. -/
def scanMantissa (cs : List Char) : Option (Nat × Nat) :=
  match scanDigits 0 0 cs with
  | (ip, ni, r1) =>
    match r1 with
    | '.' :: r2 =>
      match scanDigits 0 0 r2 with
      | (fp, nf, r3) =>
        if ni + nf = 0 then Option.none
        else scanExponent (ip * 10 ^ nf + fp) (10 ^ nf) r3
    | r =>
      if ni = 0 then Option.none else scanExponent ip 1 r

/-- Model of Python `float(s)`: strip whitespace, optional sign, then the
keywords inf/infinity/nan (case-insensitive) or a decimal literal;
`Option.none` models the ValueError on any other input. -/
def pyFloat? (s : String) : Option PyFloat :=
  let cs := pyStrip s.toList
  let signed : Bool × List Char :=
    match cs with
    | '+' :: r => (false, r)
    | '-' :: r => (true, r)
    | r => (false, r)
  let lower := signed.2.map Char.toLower
  if lower = "inf".toList || lower = "infinity".toList then some (.inf signed.1)
  else if lower = "nan".toList then some .nan
  else (scanMantissa signed.2).map (fun q => PyFloat.ofFrac signed.1 q.1 q.2)

namespace BaseScraper

/-- The body of `BaseScraper.validate_rate` (base.py, lines 42-63),
check by check; `Option.none` marks an exception escaping to the
`except Exception` handler. -/
def validateGo (rate : PyVal) : Option Bool :=
  match pyContains rate "currency", pyContains rate "rates", pyContains rate "timestamp" with
  | some b1, some b2, some b3 =>
    if b1 && b2 && b3 then
      match pyGetItem rate "currency" with
      | some currency =>
        if currency.isDict then
          match pyContains currency "en", pyContains currency "zh" with
          | some e1, some e2 =>
            if e1 && e2 then
              match pyGetItem rate "rates" with
              | some rates =>
                if rates.isDict then
                  match pyContains rates "cash", pyContains rates "spot" with
                  | some r1, some r2 =>
                    if r1 && r2 then
                      match pyGetItem rates "cash" with
                      | some cash =>
                        match pyContains cash "buy", pyContains cash "sell" with
                        | some cb, some cs =>
                          if cb && cs then
                            match pyGetItem rates "spot" with
                            | some spot =>
                              match pyContains spot "buy", pyContains spot "sell" with
                              | some sb, some ss => some (sb && ss)
                              | _, _ => Option.none
                            | _ => Option.none
                          else some false
                        | _, _ => Option.none
                      | _ => Option.none
                    else some false
                  | _, _ => Option.none
                else some false
              | _ => Option.none
            else some false
          | _, _ => Option.none
        else some false
      | _ => Option.none
    else some false
  | _, _, _ => Option.none

/-- `BaseScraper.validate_rate` (base.py, lines 40-66): any exception
during checking is caught and yields `False`. -/
def validate_rate (rate : PyVal) : Bool :=
  match validateGo rate with
  | some b => b
  | Option.none => false

/-- `BaseScraper._parse_rate` (base.py, lines 68-79): strip, map the
sentinels `-`, `N/A`, ``, `----` to `None`, drop commas and convert with
`float`; a ValueError is caught and yields `None`. -/
def _parse_rate (rate_str : String) : Option PyFloat :=
  let cleaned := pyStrip rate_str.toList
  if cleaned = ['-'] || cleaned = ['N', '/', 'A'] || cleaned = [] ||
      cleaned = ['-', '-', '-', '-'] then
    Option.none
  else
    pyFloat? (String.mk (removeChar ',' cleaned))

end BaseScraper

/-- The exception taxonomy of exceptions.py: `ScraperException` and its
three subclasses, each carrying its message. -/
inductive ScraperError where
  | fetchError : String → ScraperError
  | parseError : String → ScraperError
  | validationError : String → ScraperError
  | scraperException : String → ScraperError
deriving DecidableEq, Repr

/-- A raised Python exception as seen by `scrape`: either one of the
`ScraperException` kinds or any other exception with its `str(e)`. -/
inductive PyExc where
  | scraper : ScraperError → PyExc
  | other : String → PyExc
deriving DecidableEq, Repr

namespace BaseScraper

/-- The `try` body of `BaseScraper.scrape` (base.py, lines 83-106).
`fetch` models the abstract `fetch_data` (its result, or the exception it
raises) and `parse` the abstract `parse_rates`; `none` or an empty string
from `fetch_data` is falsy in Python, as is an empty rate list. -/
def scrapeBody (inst : String) (fetch : Except PyExc (Option String))
    (parse : String → Except PyExc (List PyVal)) : Except PyExc (List PyVal) :=
  match fetch with
  | .error e => .error e
  | .ok html =>
    match html with
    | Option.none => .error (.scraper (.fetchError ("Failed to fetch data from " ++ inst)))
    | some h =>
      if h.isEmpty then
        .error (.scraper (.fetchError ("Failed to fetch data from " ++ inst)))
      else
        match parse h with
        | .error e => .error e
        | .ok rates =>
          if rates.isEmpty then
            .error (.scraper (.parseError ("Failed to parse rates from " ++ inst)))
          else
            if (rates.filter validate_rate).isEmpty then
              .error (.scraper (.validationError ("No valid rates found from " ++ inst)))
            else
              .ok (rates.filter validate_rate)

/-- `BaseScraper.scrape` (base.py, lines 81-113): the body, with
`ScraperException`s re-raised unchanged and any other exception wrapped
into a `ScraperException` naming the institution. -/
def scrape (inst : String) (fetch : Except PyExc (Option String))
    (parse : String → Except PyExc (List PyVal)) : Except PyExc (List PyVal) :=
  match scrapeBody inst fetch parse with
  | .ok v => .ok v
  | .error (.scraper e) => .error (.scraper e)
  | .error (.other msg) =>
    .error (.scraper (.scraperException ("Failed to scrape " ++ inst ++ ": " ++ msg)))

end BaseScraper

namespace CTBCScraper

/-- `CTBCScraper._parse_rate` (ctbc.py, lines 146-165): same as the base
parser but with `---` added to the sentinel list. -/
def _parse_rate (rate_str : String) : Option PyFloat :=
  let cleaned := pyStrip rate_str.toList
  if cleaned = ['-'] || cleaned = ['N', '/', 'A'] || cleaned = [] ||
      cleaned = ['-', '-', '-', '-'] || cleaned = ['-', '-', '-'] then
    Option.none
  else
    pyFloat? (String.mk (removeChar ',' cleaned))

end CTBCScraper

/-- Lift the result of `_parse_rate` back into a Python value. -/
def ofParse : Option PyFloat → PyVal
  | Option.none => .none
  | some f => .float f

/-- The per-record loop shared by both `parse_rates` bodies: process the
rows in order, sampling the clock once per constructed record (each
record's timestamp comes from its own `datetime.now()` call). -/
def parseLoop {α : Type} (process : String → α → Option PyVal)
    (clock : Nat → String) : Nat → List α → List PyVal
  | _, [] => []
  | i, r :: rs =>
    match process (clock i) r with
    | some rec => rec :: parseLoop process clock (i + 1) rs
    | Option.none => parseLoop process clock i rs

namespace BOTScraper

/-- A row of the BOT rate table after the soup queries: the contents of
the `.currency .print_show` cell when that selector matches, and the
texts of the row's `td` cells. -/
structure Row where
  currency_cell : Option (List String)
  cells : List String

/-- The rate dict built for one BOT row (bot.py, lines 62-78); note the
`zh`-before-`en` key order. -/
def mkRate (zh en c1 c2 c3 c4 ts : String) : PyVal :=
  .dict [("currency", .dict [("zh", .str zh), ("en", .str en)]),
         ("rates", .dict [("cash", .dict [("buy", ofParse (BaseScraper._parse_rate c1)),
                                          ("sell", ofParse (BaseScraper._parse_rate c2))]),
                          ("spot", .dict [("buy", ofParse (BaseScraper._parse_rate c3)),
                                          ("sell", ofParse (BaseScraper._parse_rate c4))])]),
         ("timestamp", .str ts)]

/-- One iteration of the BOT row loop (bot.py, lines 47-88): `none` is a
`continue`, whether explicit (no currency cell, short row, invalid rate)
or via the row-level `except` (an IndexError while splitting the
currency texts). -/
def processRow (ts : String) (row : Row) : Option PyVal :=
  match row.currency_cell with
  | Option.none => Option.none
  | some contents =>
    match contents with
    | [] => Option.none
    | c0 :: _ =>
      let zh := String.mk (pyStrip ((pySplitChar '(' c0.toList).headD []))
      match (pySplitChar '(' (contents.getLastD "").toList).get? 1 with
      | Option.none => Option.none
      | some piece =>
        let en := String.mk (removeChar ')' piece)
        if row.cells.length < 5 then Option.none
        else
          let rate := mkRate zh en (row.cells.getD 1 "") (row.cells.getD 2 "")
            (row.cells.getD 3 "") (row.cells.getD 4 "") ts
          if BaseScraper.validate_rate rate then some rate else Option.none

/-- `BOTScraper.parse_rates` (bot.py, lines 36-97): the rows are the
result of `select('.table tbody tr')`; the two in-body `ParseError`s are
re-wrapped by the outer `except Exception` handler. -/
def parse_rates (clock : Nat → String) (rows : List Row) : Except PyExc (List PyVal) :=
  if rows.isEmpty then
    .error (.scraper (.parseError ("HTML parsing failed: " ++ "Could not find exchange rate table")))
  else
    if (parseLoop processRow clock 0 rows).isEmpty then
      .error (.scraper (.parseError ("HTML parsing failed: " ++ "No valid rates found in the page")))
    else
      .ok (parseLoop processRow clock 0 rows)

end BOTScraper

namespace CTBCScraper

/-- The rate dict built for one CTBC row (ctbc.py, lines 106-122); here
the currency key order is `en` before `zh`. -/
def mkRate (en zh c1 c2 c3 c4 ts : String) : PyVal :=
  .dict [("currency", .dict [("en", .str en), ("zh", .str zh)]),
         ("rates", .dict [("cash", .dict [("buy", ofParse (_parse_rate c1)),
                                          ("sell", ofParse (_parse_rate c2))]),
                          ("spot", .dict [("buy", ofParse (_parse_rate c3)),
                                          ("sell", ofParse (_parse_rate c4))])]),
         ("timestamp", .str ts)]

/-- One iteration of the CTBC row loop (ctbc.py, lines 83-134), over the
row's `td` texts: short rows and unrecognized currency formats are
skipped, the rest is validated before being kept. -/
def processRow (ts : String) (cells : List String) : Option PyVal :=
  if cells.length < 5 then Option.none
  else
    let currency_text := pyStrip (cells.headD "").toList
    match pySplitWs currency_text with
    | en :: zh :: _ =>
      let rate := mkRate (String.mk en) (String.mk zh) (cells.getD 1 "") (cells.getD 2 "")
        (cells.getD 3 "") (cells.getD 4 "") ts
      if BaseScraper.validate_rate rate then some rate else Option.none
    | _ => Option.none

/-- `CTBCScraper.parse_rates` (ctbc.py, lines 50-144): `table` is the
result of the selector fallback chain, given as its rows of `td` texts;
the first row (the header) is skipped, and the in-body `ParseError`s are
re-wrapped by the outer `except Exception` handler. -/
def parse_rates (clock : Nat → String) (table : Option (List (List String))) :
    Except PyExc (List PyVal) :=
  match table with
  | Option.none =>
    .error (.scraper (.parseError ("HTML parsing failed: " ++ "Could not find exchange rate table")))
  | some rows =>
    if (parseLoop processRow clock 0 (rows.drop 1)).isEmpty then
      .error (.scraper (.parseError ("HTML parsing failed: " ++ "No valid rates found in the page")))
    else
      .ok (parseLoop processRow clock 0 (rows.drop 1))

end CTBCScraper

/-- Response of `requests.get`: HTTP status and decoded text. -/
structure HttpResponse where
  status : Nat
  text : String

/-- `response.raise_for_status()`: raises for client (4xx) and server
(5xx) error statuses. -/
def raise_for_status (r : HttpResponse) : Except String Unit :=
  if 400 ≤ r.status ∧ r.status < 600 then .error ("HTTP " ++ toString r.status)
  else .ok ()

/-- `fetch_data` of both scrapers (bot.py lines 24-34, ctbc.py lines
24-48): the argument is the outcome of `requests.get` (a transport
error's message, or a response); any `RequestException`, including the
one `raise_for_status` raises on an error status, becomes a
`FetchError`. -/
def fetch_data (r : Except String HttpResponse) : Except PyExc (Option String) :=
  match r with
  | .error e => .error (.scraper (.fetchError ("HTTP request failed: " ++ e)))
  | .ok resp =>
    match raise_for_status resp with
    | .error e => .error (.scraper (.fetchError ("HTTP request failed: " ++ e)))
    | .ok _ => .ok (some resp.text)

/-- Replace the value stored under the `timestamp` key of a record by
`None`, leaving every other field alone. -/
def scrubTS : PyVal → PyVal
  | .dict kvs => .dict (kvs.map (fun p => if p.1 = "timestamp" then (p.1, PyVal.none) else p))
  | v => v

theorem validate_rate_sound (rate : PyVal) (h : BaseScraper.validate_rate rate = true) :
    pyContains rate "currency" = some true ∧ pyContains rate "rates" = some true ∧
    pyContains rate "timestamp" = some true ∧
    ∃ currency rates, pyGetItem rate "currency" = some currency ∧
      pyGetItem rate "rates" = some rates ∧
      currency.isDict = true ∧ rates.isDict = true ∧
      pyContains currency "en" = some true ∧ pyContains currency "zh" = some true ∧
      pyContains rates "cash" = some true ∧ pyContains rates "spot" = some true ∧
      ∃ cash spot, pyGetItem rates "cash" = some cash ∧ pyGetItem rates "spot" = some spot ∧
        pyContains cash "buy" = some true ∧ pyContains cash "sell" = some true ∧
        pyContains spot "buy" = some true ∧ pyContains spot "sell" = some true := by
  have hgo : BaseScraper.validateGo rate = some true := by
    unfold BaseScraper.validate_rate at h
    cases hv : BaseScraper.validateGo rate with
    | none => rw [hv] at h; simp at h
    | some b => rw [hv] at h; simp at h; rw [h]
  unfold BaseScraper.validateGo at hgo
  split at hgo
  case _ b1 b2 b3 h1 h2 h3 =>
    split at hgo
    case isFalse => simp at hgo
    case isTrue hb =>
      simp only [Bool.and_eq_true] at hb
      split at hgo
      case _ currency hcur =>
        split at hgo
        case isFalse => simp at hgo
        case isTrue hcd =>
          split at hgo
          case _ e1 e2 he1 he2 =>
            split at hgo
            case isFalse => simp at hgo
            case isTrue he =>
              simp only [Bool.and_eq_true] at he
              split at hgo
              case _ rates hrs =>
                split at hgo
                case isFalse => simp at hgo
                case isTrue hrd =>
                  split at hgo
                  case _ r1 r2 hr1 hr2 =>
                    split at hgo
                    case isFalse => simp at hgo
                    case isTrue hr =>
                      simp only [Bool.and_eq_true] at hr
                      split at hgo
                      case _ cash hcash =>
                        split at hgo
                        case _ cb cs hcb hcs =>
                          split at hgo
                          case isFalse => simp at hgo
                          case isTrue hc =>
                            simp only [Bool.and_eq_true] at hc
                            split at hgo
                            case _ spot hspot =>
                              split at hgo
                              case _ sb ss hsb hss =>
                                simp only [Option.some.injEq, Bool.and_eq_true] at hgo
                                refine ⟨by rw [h1, hb.1.1], by rw [h2, hb.1.2], by rw [h3, hb.2],
                                  currency, rates, hcur, hrs, hcd, hrd,
                                  by rw [he1, he.1], by rw [he2, he.2],
                                  by rw [hr1, hr.1], by rw [hr2, hr.2],
                                  cash, spot, hcash, hspot,
                                  by rw [hcb, hc.1], by rw [hcs, hc.2],
                                  by rw [hsb, hgo.1], by rw [hss, hgo.2]⟩
                              case _ => simp at hgo
                            case _ => simp at hgo
                        case _ => simp at hgo
                      case _ => simp at hgo
                  case _ => simp at hgo
              case _ => simp at hgo
          case _ => simp at hgo
      case _ => simp at hgo
  case _ => simp at hgo

/-- C3 counterexample: a record whose `rates.cash` is a list (not a
mapping) that contains both the strings `buy` and `sell` is accepted by
`validate_rate`, so a non-mapping `cash` does not force a `false`
verdict. -/
theorem C3_counterexample :
    PyVal.isDict (.list [.str "buy", .str "sell"]) = false ∧
    BaseScraper.validate_rate (.dict [("currency", .dict [("en", .str "USD"), ("zh", .str "X")]),
      ("rates", .dict [("cash", .list [.str "buy", .str "sell"]),
                       ("spot", .dict [("buy", .none), ("sell", .none)])]),
      ("timestamp", .str "t")]) = true := ⟨rfl, rfl⟩

/-- C3 (amended): `validate_rate` returns true only if `rates.cash` and
`rates.spot` each contain both `buy` and `sell` under Python membership
(as dict keys, list elements or substrings); being a mapping is not
itself checked, but any value on which membership raises (a number,
null, ...) makes `validate_rate` return false. -/
theorem C3_validate_rate_membership :
    (∀ rate rates cash spot,
      pyGetItem rate "rates" = some rates →
      pyGetItem rates "cash" = some cash →
      pyGetItem rates "spot" = some spot →
      BaseScraper.validate_rate rate = true →
      pyContains cash "buy" = some true ∧ pyContains cash "sell" = some true ∧
      pyContains spot "buy" = some true ∧ pyContains spot "sell" = some true) ∧
    (∀ rate rates cash,
      pyGetItem rate "rates" = some rates →
      pyGetItem rates "cash" = some cash →
      pyContains cash "buy" = Option.none →
      BaseScraper.validate_rate rate = false) ∧
    (∀ rate rates spot,
      pyGetItem rate "rates" = some rates →
      pyGetItem rates "spot" = some spot →
      pyContains spot "buy" = Option.none →
      BaseScraper.validate_rate rate = false) := by
  have main : ∀ rate rates cash spot,
      pyGetItem rate "rates" = some rates →
      pyGetItem rates "cash" = some cash →
      pyGetItem rates "spot" = some spot →
      BaseScraper.validate_rate rate = true →
      pyContains cash "buy" = some true ∧ pyContains cash "sell" = some true ∧
      pyContains spot "buy" = some true ∧ pyContains spot "sell" = some true := by
    intro rate rates cash spot hr hc hs hv
    obtain ⟨-, -, -, cur', rates', -, hr', -, -, -, -, -, -, cash', spot', hc', hs',
      hcb, hcs, hsb, hss⟩ := validate_rate_sound rate hv
    rw [hr] at hr'; injection hr' with hr2; subst hr2
    rw [hc] at hc'; injection hc' with hc2; subst hc2
    rw [hs] at hs'; injection hs' with hs2; subst hs2
    exact ⟨hcb, hcs, hsb, hss⟩
  refine ⟨main, ?_, ?_⟩
  · intro rate rates cash hr hc hnone
    cases hv : BaseScraper.validate_rate rate with
    | false => rfl
    | true =>
      obtain ⟨-, -, -, cur', rates', -, hr', -, -, -, -, -, -, cash', spot', hc', hs',
        hcb, -, -, -⟩ := validate_rate_sound rate hv
      rw [hr] at hr'; injection hr' with hr2; subst hr2
      rw [hc] at hc'; injection hc' with hc2; subst hc2
      rw [hnone] at hcb; cases hcb
  · intro rate rates spot hr hs hnone
    cases hv : BaseScraper.validate_rate rate with
    | false => rfl
    | true =>
      obtain ⟨-, -, -, cur', rates', -, hr', -, -, -, -, -, -, cash', spot', hc', hs',
        -, -, hsb, -⟩ := validate_rate_sound rate hv
      rw [hr] at hr'; injection hr' with hr2; subst hr2
      rw [hs] at hs'; injection hs' with hs2; subst hs2
      rw [hnone] at hsb; cases hsb

/-- Witness for C3: the amended theorem applied to a fully dict-shaped
record (membership facts hold) and to a record whose `cash` is null
(validation fails). -/
theorem C3_witness :
    (pyContains (.dict [("buy", PyVal.none), ("sell", PyVal.none)]) "buy" = some true ∧
     pyContains (.dict [("buy", PyVal.none), ("sell", PyVal.none)]) "sell" = some true ∧
     pyContains (.dict [("buy", PyVal.none), ("sell", PyVal.none)]) "buy" = some true ∧
     pyContains (.dict [("buy", PyVal.none), ("sell", PyVal.none)]) "sell" = some true) ∧
    BaseScraper.validate_rate (.dict [("currency", .dict [("en", .str "USD"), ("zh", .str "X")]),
      ("rates", .dict [("cash", PyVal.none),
                       ("spot", .dict [("buy", PyVal.none), ("sell", PyVal.none)])]),
      ("timestamp", .str "t")]) = false :=
  ⟨C3_validate_rate_membership.1
      (.dict [("currency", .dict [("en", .str "USD"), ("zh", .str "X")]),
        ("rates", .dict [("cash", .dict [("buy", PyVal.none), ("sell", PyVal.none)]),
                         ("spot", .dict [("buy", PyVal.none), ("sell", PyVal.none)])]),
        ("timestamp", .str "t")])
      (.dict [("cash", .dict [("buy", PyVal.none), ("sell", PyVal.none)]),
              ("spot", .dict [("buy", PyVal.none), ("sell", PyVal.none)])])
      (.dict [("buy", PyVal.none), ("sell", PyVal.none)])
      (.dict [("buy", PyVal.none), ("sell", PyVal.none)]) rfl rfl rfl rfl,
   C3_validate_rate_membership.2.1
      (.dict [("currency", .dict [("en", .str "USD"), ("zh", .str "X")]),
        ("rates", .dict [("cash", PyVal.none),
                         ("spot", .dict [("buy", PyVal.none), ("sell", PyVal.none)])]),
        ("timestamp", .str "t")])
      (.dict [("cash", PyVal.none),
              ("spot", .dict [("buy", PyVal.none), ("sell", PyVal.none)])])
      PyVal.none rfl rfl rfl⟩

/-- C5: any record missing one of the keys `currency`, `rates`,
`timestamp` is rejected by `validate_rate`; any record whose
`rates.cash` mapping lacks the key `sell` is rejected; an otherwise
well-shaped record whose `rates.cash.sell` is present with a null value
is accepted (key absence and null value are distinguished). -/
theorem C5_required_fields_and_null_sell :
    (∀ kvs : List (String × PyVal),
      ((∀ p ∈ kvs, p.1 ≠ "currency") ∨ (∀ p ∈ kvs, p.1 ≠ "rates") ∨
        (∀ p ∈ kvs, p.1 ≠ "timestamp")) →
      BaseScraper.validate_rate (.dict kvs) = false) ∧
    (∀ rate rates ckvs,
      pyGetItem rate "rates" = some rates →
      pyGetItem rates "cash" = some (.dict ckvs) →
      (∀ p ∈ ckvs, p.1 ≠ "sell") →
      BaseScraper.validate_rate rate = false) ∧
    BaseScraper.validate_rate (.dict [("currency", .dict [("en", .str "USD"), ("zh", .str "X")]),
      ("rates", .dict [("cash", .dict [("buy", .float (.finite 30 1)), ("sell", PyVal.none)]),
                       ("spot", .dict [("buy", PyVal.none), ("sell", PyVal.none)])]),
      ("timestamp", .str "t")]) = true := by
  refine ⟨?_, ?_, rfl⟩
  · intro kvs hmiss
    cases hv : BaseScraper.validate_rate (.dict kvs) with
    | false => rfl
    | true =>
      obtain ⟨hcu, hra, hts, -⟩ := validate_rate_sound _ hv
      simp only [pyContains, Option.some.injEq, List.any_eq_true, beq_iff_eq] at hcu hra hts
      rcases hmiss with hm | hm | hm
      · obtain ⟨p, hp, he⟩ := hcu; exact absurd he (hm p hp)
      · obtain ⟨p, hp, he⟩ := hra; exact absurd he (hm p hp)
      · obtain ⟨p, hp, he⟩ := hts; exact absurd he (hm p hp)
  · intro rate rates ckvs hr hc hmiss
    cases hv : BaseScraper.validate_rate rate with
    | false => rfl
    | true =>
      obtain ⟨-, -, -, cur', rates', -, hr', -, -, -, -, -, -, cash', spot', hc', -,
        -, hcs, -, -⟩ := validate_rate_sound rate hv
      rw [hr] at hr'; injection hr' with hr2; subst hr2
      rw [hc] at hc'; injection hc' with hc2; subst hc2
      simp only [pyContains, Option.some.injEq, List.any_eq_true, beq_iff_eq] at hcs
      obtain ⟨p, hp, he⟩ := hcs
      exact absurd he (hmiss p hp)

/-- Witness for C5: the theorem applied to a record with only
`currency` and `rates` keys, and to a record whose `cash` dict lacks
`sell`. -/
theorem C5_witness :
    BaseScraper.validate_rate (.dict [("currency", PyVal.none), ("rates", PyVal.none)]) = false ∧
    BaseScraper.validate_rate (.dict [("currency", .dict [("en", .str "USD"), ("zh", .str "X")]),
      ("rates", .dict [("cash", .dict [("buy", PyVal.none)]),
                       ("spot", .dict [("buy", PyVal.none), ("sell", PyVal.none)])]),
      ("timestamp", .str "t")]) = false :=
  ⟨C5_required_fields_and_null_sell.1 [("currency", PyVal.none), ("rates", PyVal.none)]
      (Or.inr (Or.inr (by decide))),
   C5_required_fields_and_null_sell.2.1
      (.dict [("currency", .dict [("en", .str "USD"), ("zh", .str "X")]),
        ("rates", .dict [("cash", .dict [("buy", PyVal.none)]),
                         ("spot", .dict [("buy", PyVal.none), ("sell", PyVal.none)])]),
        ("timestamp", .str "t")])
      (.dict [("cash", .dict [("buy", PyVal.none)]),
              ("spot", .dict [("buy", PyVal.none), ("sell", PyVal.none)])])
      [("buy", PyVal.none)] rfl rfl (by decide)⟩

/-- C4: every cell string that strips to one of the sentinels `-`,
`N/A`, the empty string, `----` or `---` (hence also whitespace-only
strings) is mapped to absent (`None`) by both the base scraper's and the
CTBC scraper's `_parse_rate`, not to an error. -/
theorem C4_sentinels_absent (s : String)
    (h : pyStrip s.toList = ['-'] ∨ pyStrip s.toList = ['N', '/', 'A'] ∨
      pyStrip s.toList = [] ∨ pyStrip s.toList = ['-', '-', '-', '-'] ∨
      pyStrip s.toList = ['-', '-', '-']) :
    BaseScraper._parse_rate s = Option.none ∧ CTBCScraper._parse_rate s = Option.none := by
  unfold BaseScraper._parse_rate CTBCScraper._parse_rate
  rcases h with h | h | h | h | h <;> rw [h] <;> exact ⟨rfl, rfl⟩

/-- Witness for C4: the sentinel theorem applied to the strings `---`
and a two-space string. -/
theorem C4_witness :
    (BaseScraper._parse_rate "---" = Option.none ∧ CTBCScraper._parse_rate "---" = Option.none) ∧
    (BaseScraper._parse_rate "  " = Option.none ∧ CTBCScraper._parse_rate "  " = Option.none) :=
  ⟨C4_sentinels_absent "---" (Or.inr (Or.inr (Or.inr (Or.inr rfl)))),
   C4_sentinels_absent "  " (Or.inr (Or.inr (Or.inl rfl)))⟩

/-- C10: the base scraper's `_parse_rate` and the CTBC scraper's
overriding `_parse_rate` agree on every input string, even though the
base sentinel list omits `---` (there, `float` raises a ValueError that
is caught and also yields `None`). -/
theorem C10_parse_rate_observational_equiv (s : String) :
    BaseScraper._parse_rate s = CTBCScraper._parse_rate s := by
  unfold BaseScraper._parse_rate CTBCScraper._parse_rate
  by_cases h1 : pyStrip s.data = ['-']
  · simp [h1]
  · by_cases h2 : pyStrip s.data = ['N', '/', 'A']
    · simp [h2]
    · by_cases h3 : pyStrip s.data = []
      · simp [h3]
      · by_cases h4 : pyStrip s.data = ['-', '-', '-', '-']
        · simp [h4]
        · by_cases h5 : pyStrip s.data = ['-', '-', '-']
          · simp only [String.toList, h5]; exact rfl
          · simp [h1, h2, h3, h4, h5]

/-- C1: every non-exceptional `scrape()` call returns a non-empty list
whose records all satisfy `validate_rate`; whenever the validated set
would be empty, `scrape()` produces a typed `ScraperException`-family
error instead of returning an empty or partially-valid list. -/
theorem C1_scrape_all_validated :
    (∀ inst fetch parse l, BaseScraper.scrape inst fetch parse = .ok l →
      l ≠ [] ∧ ∀ r ∈ l, BaseScraper.validate_rate r = true) ∧
    (∀ inst fetch parse h rates, fetch = .ok (some h) →
      parse h = .ok rates → rates.filter BaseScraper.validate_rate = [] →
      ∃ e, BaseScraper.scrape inst fetch parse = .error (.scraper e)) := by
  constructor
  · intro inst fetch parse l hok
    unfold BaseScraper.scrape at hok
    cases hb : BaseScraper.scrapeBody inst fetch parse with
    | error e => rw [hb] at hok; cases e <;> simp at hok
    | ok v =>
      rw [hb] at hok
      injection hok with hv
      subst hv
      unfold BaseScraper.scrapeBody at hb
      split at hb
      · simp at hb
      · split at hb
        · simp at hb
        · split at hb
          · simp at hb
          · split at hb
            · simp at hb
            · split at hb
              · simp at hb
              · split at hb
                · simp at hb
                · rename_i hne
                  injection hb with hv2
                  subst hv2
                  constructor
                  · intro hnil
                    rw [hnil] at hne
                    simp at hne
                  · intro r hr
                    exact (List.mem_filter.mp hr).2
  · intro inst fetch parse h rates hfetch hparse hfil
    subst hfetch
    unfold BaseScraper.scrape BaseScraper.scrapeBody
    by_cases hhe : h.isEmpty
    · exact ⟨.fetchError ("Failed to fetch data from " ++ inst), by simp [hhe]⟩
    · by_cases hre : rates.isEmpty
      · exact ⟨.parseError ("Failed to parse rates from " ++ inst),
          by simp [hhe, hparse, hre]⟩
      · have hfe : (rates.filter BaseScraper.validate_rate).isEmpty = true := by
          rw [hfil]; rfl
        exact ⟨.validationError ("No valid rates found from " ++ inst),
          by simp [hhe, hparse, hre, hfe]⟩

/-- Witness for C1: the theorem applied to a run returning one valid
record, and to a run whose only parsed record fails validation. -/
theorem C1_witness :
    ([(.dict [("currency", .dict [("en", .str "USD"), ("zh", .str "X")]),
        ("rates", .dict [("cash", .dict [("buy", PyVal.none), ("sell", PyVal.none)]),
                         ("spot", .dict [("buy", PyVal.none), ("sell", PyVal.none)])]),
        ("timestamp", .str "t")] : PyVal)] ≠ [] ∧
      ∀ r ∈ ([(.dict [("currency", .dict [("en", .str "USD"), ("zh", .str "X")]),
        ("rates", .dict [("cash", .dict [("buy", PyVal.none), ("sell", PyVal.none)]),
                         ("spot", .dict [("buy", PyVal.none), ("sell", PyVal.none)])]),
        ("timestamp", .str "t")] : PyVal)]), BaseScraper.validate_rate r = true) ∧
    (∃ e, BaseScraper.scrape "X" (.ok (some "h")) (fun _ => .ok [.dict []]) =
      .error (.scraper e)) :=
  ⟨C1_scrape_all_validated.1 "X" (.ok (some "h"))
      (fun _ => .ok [.dict [("currency", .dict [("en", .str "USD"), ("zh", .str "X")]),
        ("rates", .dict [("cash", .dict [("buy", PyVal.none), ("sell", PyVal.none)]),
                         ("spot", .dict [("buy", PyVal.none), ("sell", PyVal.none)])]),
        ("timestamp", .str "t")]]) _ rfl,
   C1_scrape_all_validated.2 "X" (.ok (some "h")) (fun _ => .ok [.dict []]) "h" [.dict []]
      rfl rfl rfl⟩

/-- C2: when fetch succeeds and parse yields at least one record but
every record fails `validate_rate`, `scrape()` raises `ValidationError`
(invalid records are dropped one by one; the batch fails only when the
surviving set is empty). -/
theorem C2_all_invalid_raises_validation_error :
    ∀ inst fetch parse h rates, fetch = .ok (some h) → h ≠ "" →
      parse h = .ok rates → rates ≠ [] →
      (∀ r ∈ rates, BaseScraper.validate_rate r = false) →
      BaseScraper.scrape inst fetch parse =
        .error (.scraper (.validationError ("No valid rates found from " ++ inst))) := by
  intro inst fetch parse h rates hfetch hne hparse hrne hall
  subst hfetch
  have hfil : rates.filter BaseScraper.validate_rate = [] := by
    rw [List.filter_eq_nil_iff]
    intro a ha
    simp [hall a ha]
  have hhe : h.isEmpty = false := by
    cases hie : h.isEmpty with
    | false => rfl
    | true => exact absurd ((String.isEmpty_iff h).mp hie) hne
  have hre : rates.isEmpty = false := by
    cases rates with
    | nil => exact absurd rfl hrne
    | cons a l => rfl
  have hfe : (rates.filter BaseScraper.validate_rate).isEmpty = true := by rw [hfil]; rfl
  unfold BaseScraper.scrape BaseScraper.scrapeBody
  simp [hhe, hparse, hre, hfe]

/-- Witness for C2: the theorem applied to a parse result holding one
record that fails validation. -/
theorem C2_witness :
    BaseScraper.scrape "X" (.ok (some "h")) (fun _ => .ok [.dict []]) =
      .error (.scraper (.validationError ("No valid rates found from " ++ "X"))) :=
  C2_all_invalid_raises_validation_error "X" (.ok (some "h")) (fun _ => .ok [.dict []])
    "h" [.dict []] rfl (by simp) rfl (by simp)
    (by intro r hr; rw [List.mem_singleton] at hr; subst hr; rfl)

/-- C7: when the transport fails or the HTTP status is a client or
server error, `scrape()` raises `FetchError`, and the result does not
depend on the parser, which is therefore never invoked on any
document. -/
theorem C7_fetch_failure_no_parse :
    ∀ inst r, ((∃ e, r = Except.error e) ∨
      (∃ resp, r = Except.ok resp ∧ 400 ≤ resp.status ∧ resp.status < 600)) →
      ∃ msg, ∀ parse, BaseScraper.scrape inst (fetch_data r) parse =
        .error (.scraper (.fetchError msg)) := by
  intro inst r hr
  rcases hr with ⟨e, he⟩ | ⟨resp, he, h4, h6⟩
  · subst he
    exact ⟨"HTTP request failed: " ++ e, fun parse => rfl⟩
  · subst he
    have hst : raise_for_status resp = .error ("HTTP " ++ toString resp.status) := by
      unfold raise_for_status
      rw [if_pos ⟨h4, h6⟩]
    refine ⟨"HTTP request failed: " ++ ("HTTP " ++ toString resp.status), fun parse => ?_⟩
    unfold BaseScraper.scrape BaseScraper.scrapeBody fetch_data
    simp [hst]

/-- Witness for C7: the theorem applied to an HTTP 500 response. -/
theorem C7_witness :
    ∃ msg, ∀ parse, BaseScraper.scrape "Bank of Taiwan" (fetch_data (.ok ⟨500, "b"⟩)) parse =
      .error (.scraper (.fetchError msg)) :=
  C7_fetch_failure_no_parse "Bank of Taiwan" (.ok ⟨500, "b"⟩)
    (Or.inr ⟨⟨500, "b"⟩, rfl, by norm_num, by norm_num⟩)

/-- C8: an exception that is not one of the typed `ScraperException`
kinds escaping the fetch/parse/validate body is wrapped into a
`ScraperException` whose message contains the institution name and the
original message; typed exceptions are re-raised unchanged. -/
theorem C8_wrap_unexpected_exceptions :
    (∀ inst fetch parse msg, BaseScraper.scrapeBody inst fetch parse = .error (.other msg) →
      BaseScraper.scrape inst fetch parse =
        .error (.scraper (.scraperException ("Failed to scrape " ++ inst ++ ": " ++ msg))) ∧
      ∃ p q, "Failed to scrape " ++ inst ++ ": " ++ msg = p ++ inst ++ q ++ msg) ∧
    (∀ inst fetch parse e, BaseScraper.scrapeBody inst fetch parse = .error (.scraper e) →
      BaseScraper.scrape inst fetch parse = .error (.scraper e)) := by
  constructor
  · intro inst fetch parse msg hbody
    constructor
    · unfold BaseScraper.scrape
      rw [hbody]
    · exact ⟨"Failed to scrape ", ": ", rfl⟩
  · intro inst fetch parse e hbody
    unfold BaseScraper.scrape
    rw [hbody]

/-- Witness for C8: the theorem applied to a fetch step raising a
generic exception, and to one raising a `FetchError`. -/
theorem C8_witness :
    (BaseScraper.scrape "X" (.error (.other "boom")) (fun _ => .ok []) =
      .error (.scraper (.scraperException ("Failed to scrape " ++ "X" ++ ": " ++ "boom"))) ∧
     ∃ p q, "Failed to scrape " ++ "X" ++ ": " ++ "boom" = p ++ "X" ++ q ++ "boom") ∧
    BaseScraper.scrape "Y" (.error (.scraper (.fetchError "down"))) (fun _ => .ok []) =
      .error (.scraper (.fetchError "down")) :=
  ⟨C8_wrap_unexpected_exceptions.1 "X" (.error (.other "boom")) (fun _ => .ok []) "boom" rfl,
   C8_wrap_unexpected_exceptions.2 "Y" (.error (.scraper (.fetchError "down"))) (fun _ => .ok [])
     (.fetchError "down") rfl⟩

/-- C6: in both parser variants a data row with fewer than 5 cells is
skipped without raising (its row function is total and yields no
record), and a document with one well-formed currency row plus one
3-cell row parses to exactly the one well-formed record. -/
theorem C6_short_rows_skipped :
    (∀ ts row, row.cells.length < 5 → BOTScraper.processRow ts row = Option.none) ∧
    (∀ ts cells, cells.length < 5 → CTBCScraper.processRow ts cells = Option.none) ∧
    (∀ clock, BOTScraper.parse_rates clock
        [⟨some ["US Dollar (USD)"], ["US Dollar (USD)", "30.5", "31.0", "30.8", "30.9"]⟩,
         ⟨some ["US Dollar (USD)"], ["a", "b", "c"]⟩] =
      .ok [.dict [("currency", .dict [("zh", .str "US Dollar"), ("en", .str "USD")]),
        ("rates", .dict [("cash", .dict [("buy", .float (.finite 61 2)),
                                         ("sell", .float (.finite 31 1))]),
                         ("spot", .dict [("buy", .float (.finite 154 5)),
                                         ("sell", .float (.finite 309 10))])]),
        ("timestamp", .str (clock 0))]]) ∧
    (∀ clock, CTBCScraper.parse_rates clock
        (some [[], ["USD UsDollar", "30.5", "-", "1,234.56", "N/A"], ["USD UsDollar", "1", "2"]]) =
      .ok [.dict [("currency", .dict [("en", .str "USD"), ("zh", .str "UsDollar")]),
        ("rates", .dict [("cash", .dict [("buy", .float (.finite 61 2)), ("sell", PyVal.none)]),
                         ("spot", .dict [("buy", .float (.finite 30864 25)), ("sell", PyVal.none)])]),
        ("timestamp", .str (clock 0))]]) := by
  refine ⟨?_, ?_, fun clock => rfl, fun clock => rfl⟩
  · intro ts row h
    unfold BOTScraper.processRow
    split
    · rfl
    · split
      · rfl
      · split
        · rfl
        · rw [if_pos h]
  · intro ts cells h
    unfold CTBCScraper.processRow
    rw [if_pos h]

/-- Witness for C6: the skip clauses applied to concrete 3-cell
rows. -/
theorem C6_witness :
    BOTScraper.processRow "t" ⟨some ["US Dollar (USD)"], ["a", "b", "c"]⟩ = Option.none ∧
    CTBCScraper.processRow "t" ["USD UsDollar", "1", "2"] = Option.none :=
  ⟨C6_short_rows_skipped.1 "t" ⟨some ["US Dollar (USD)"], ["a", "b", "c"]⟩ (by decide),
   C6_short_rows_skipped.2.1 "t" ["USD UsDollar", "1", "2"] (by decide)⟩

/-- Every record `mkRate` builds passes validation, whatever the cell
strings were. -/
theorem validate_mkRate_bot (zh en c1 c2 c3 c4 ts : String) :
    BaseScraper.validate_rate (BOTScraper.mkRate zh en c1 c2 c3 c4 ts) = true := rfl

/-- Every record CTBC's `mkRate` builds passes validation. -/
theorem validate_mkRate_ctbc (en zh c1 c2 c3 c4 ts : String) :
    BaseScraper.validate_rate (CTBCScraper.mkRate en zh c1 c2 c3 c4 ts) = true := rfl

/-- A BOT row's contribution does not depend on the timestamp, except in
the timestamp field itself. -/
theorem botProcessRow_scrub (ts ts' : String) (row : BOTScraper.Row) :
    (BOTScraper.processRow ts row).map scrubTS = (BOTScraper.processRow ts' row).map scrubTS := by
  unfold BOTScraper.processRow
  split
  · rfl
  · split
    · rfl
    · split
      · rfl
      · split
        · rfl
        · simp only [validate_mkRate_bot, if_true]
          exact rfl

/-- A CTBC row's contribution does not depend on the timestamp, except in
the timestamp field itself. -/
theorem ctbcProcessRow_scrub (ts ts' : String) (cells : List String) :
    (CTBCScraper.processRow ts cells).map scrubTS =
      (CTBCScraper.processRow ts' cells).map scrubTS := by
  unfold CTBCScraper.processRow
  split
  · rfl
  · dsimp only
    split
    · simp only [validate_mkRate_ctbc, if_true]
      exact rfl
    · rfl

/-- The record loop produces the same list, modulo timestamps, whatever
the clocks and starting counters are. -/
theorem parseLoop_scrub {α : Type} (process : String → α → Option PyVal)
    (hp : ∀ ts ts' r, (process ts r).map scrubTS = (process ts' r).map scrubTS)
    (c1 c2 : Nat → String) :
    ∀ rows i j, (parseLoop process c1 i rows).map scrubTS =
      (parseLoop process c2 j rows).map scrubTS := by
  intro rows
  induction rows with
  | nil => intro i j; rfl
  | cons r rs ih =>
    intro i j
    have hr := hp (c1 i) (c2 j) r
    unfold parseLoop
    cases h1 : process (c1 i) r with
    | none =>
      cases h2 : process (c2 j) r with
      | none => exact ih i j
      | some b => rw [h1, h2] at hr; simp at hr
    | some a =>
      cases h2 : process (c2 j) r with
      | none => rw [h1, h2] at hr; simp at hr
      | some b =>
        rw [h1, h2] at hr
        simp only [Option.map_some'] at hr
        injection hr with hab
        rw [List.map_cons, List.map_cons, hab, ih (i + 1) (j + 1)]

/-- C9: parsing the same document with two different clocks gives the
same outcome, and on success record lists that agree on every field
once the timestamp field is blanked, for both parser variants. -/
theorem C9_parse_deterministic_modulo_timestamp :
    (∀ (c1 c2 : Nat → String) rows,
      Except.map (List.map scrubTS) (BOTScraper.parse_rates c1 rows) =
      Except.map (List.map scrubTS) (BOTScraper.parse_rates c2 rows)) ∧
    (∀ (c1 c2 : Nat → String) table,
      Except.map (List.map scrubTS) (CTBCScraper.parse_rates c1 table) =
      Except.map (List.map scrubTS) (CTBCScraper.parse_rates c2 table)) := by
  constructor
  · intro c1 c2 rows
    unfold BOTScraper.parse_rates
    cases hrow : rows.isEmpty with
    | true => rfl
    | false =>
      have hl := parseLoop_scrub BOTScraper.processRow botProcessRow_scrub c1 c2 rows 0 0
      obtain ⟨L1, hL1⟩ : ∃ L, parseLoop BOTScraper.processRow c1 0 rows = L := ⟨_, rfl⟩
      obtain ⟨L2, hL2⟩ : ∃ L, parseLoop BOTScraper.processRow c2 0 rows = L := ⟨_, rfl⟩
      rw [hL1, hL2] at hl ⊢
      cases L1 with
      | nil =>
        cases L2 with
        | nil => rfl
        | cons b bs => simp at hl
      | cons a as =>
        cases L2 with
        | nil => simp at hl
        | cons b bs => simp [Except.map, hl]
  · intro c1 c2 table
    cases table with
    | none => rfl
    | some rows =>
      unfold CTBCScraper.parse_rates
      dsimp only
      have hl := parseLoop_scrub CTBCScraper.processRow ctbcProcessRow_scrub c1 c2 (rows.drop 1) 0 0
      obtain ⟨L1, hL1⟩ : ∃ L, parseLoop CTBCScraper.processRow c1 0 (rows.drop 1) = L := ⟨_, rfl⟩
      obtain ⟨L2, hL2⟩ : ∃ L, parseLoop CTBCScraper.processRow c2 0 (rows.drop 1) = L := ⟨_, rfl⟩
      rw [hL1, hL2] at hl ⊢
      cases L1 with
      | nil =>
        cases L2 with
        | nil => rfl
        | cons b bs => simp at hl
      | cons a as =>
        cases L2 with
        | nil => simp at hl
        | cons b bs => simp [Except.map, hl]
